import Mathlib

/-!
A verification development for the zeropod shim: a shallow embedding of the
scale-down / activation logic (lifecycle wrapper, checkpoint/restore engine,
exit reconciler and config loader), together with theorems about it.

Conventions of the embedding:
* Go strings are Lean `String`s; maps are association lists or functions.
* Side effects (filesystem, runtime calls, events) are recorded as explicit
  effect lists; outcomes of external calls (the OCI runtime, the delegate
  task service) are inputs to the model.
* Fallible Go functions become `Except String` or `Option` values.
-/

namespace Zeropod

/-! ## String helpers mirroring the Go standard library -/

/-- Go strings.HasPrefix, via the character lists underlying `String`. -/
def hasPfx (s p : String) : Bool := p.data.isPrefixOf s.data

/-- Go strings.HasSuffix. -/
def hasSfx (s p : String) : Bool := p.data.isSuffixOf s.data

/-- Go strings.TrimPrefix: drop `p` from the front of `s` when present. -/
def trimPfx (s p : String) : String :=
  if hasPfx s p then ⟨s.data.drop p.data.length⟩ else s

/-- Go strings.TrimSuffix: drop `p` from the end of `s` when present. -/
def trimSfx (s p : String) : String :=
  if hasSfx s p then ⟨s.data.take (s.data.length - p.data.length)⟩ else s

/-- Split a character list at every occurrence of `c` (Go strings.Split with a
one-character separator; splitting the empty string yields one empty field). -/
def splitChAux (c : Char) : List Char → List (List Char)
  | [] => [[]]
  | x :: xs =>
    let r := splitChAux c xs
    if x = c then [] :: r
    else
      match r with
      | [] => [[x]]
      | h :: t => (x :: h) :: t

/-- Go strings.Split with a one-character separator. -/
def strSplit (c : Char) (s : String) : List String :=
  (splitChAux c s.data).map (fun l => ⟨l⟩)

/-- Numeric value of a list of decimal digits. -/
def digitsVal (l : List Char) : Nat :=
  l.foldl (fun acc c => acc * 10 + (c.toNat - 48)) 0

/-- Go strconv.ParseUint(s, 10, 16): non-empty, decimal digits only, and the
value must fit in 16 bits. -/
def parseUint16 (s : String) : Option Nat :=
  if s.data = [] then none
  else if s.data.all (fun c => c.isDigit) then
    let n := digitsVal s.data
    if n < 65536 then some n else none
  else none

/-- Go strconv.ParseBool: accepts exactly the twelve literal forms. -/
def parseGoBool (s : String) : Except String Bool :=
  if s = "1" || s = "t" || s = "T" || s = "TRUE" || s = "true" || s = "True" then
    .ok true
  else if s = "0" || s = "f" || s = "F" || s = "FALSE" || s = "false" || s = "False" then
    .ok false
  else .error "strconv.ParseBool: parsing: invalid syntax"

/-- Nanosecond multiplier of a Go duration unit. -/
def unitNanos (u : String) : Option Nat :=
  if u = "ns" then some 1
  else if u = "us" then some 1000
  else if u = "ms" then some 1000000
  else if u = "s" then some 1000000000
  else if u = "m" then some 60000000000
  else if u = "h" then some 3600000000000
  else none

/-- Go time.ParseDuration (external standard library), modelled for the
fragment of integer values with a single unit suffix such as "10s" or "2m";
"0" parses as zero, anything else without digits or with an unknown unit is
an error. -/
def parseGoDuration (s : String) : Except String Nat :=
  if s = "0" then .ok 0
  else
    let ds := s.data.takeWhile (fun c => c.isDigit)
    let rest : String := ⟨s.data.dropWhile (fun c => c.isDigit)⟩
    if ds = [] then .error "time: invalid duration"
    else
      match unitNanos rest with
      | some m => .ok (digitsVal ds * m)
      | none => .error "time: invalid duration"

/-- Go path.Join for two components, on cleaned inputs: empty components are
dropped, otherwise the components are joined with a slash. -/
def pathJoin (a b : String) : String :=
  if a = "" then b
  else if b = "" then a
  else a ++ "/" ++ b

/-! ## Config loader (zeropod/config.go) -/

/-- Key of the ports-map annotation. -/
def portsMapKey : String := "zeropod.ctrox.dev/ports-map"

/-- Key of the container-names annotation. -/
def containerNamesKey : String := "zeropod.ctrox.dev/container-names"

/-- Key of the scaledown-duration annotation. -/
def scaleDownDurationKey : String := "zeropod.ctrox.dev/scaledown-duration"

/-- Key of the disable-checkpointing annotation. -/
def disableCheckpointingKey : String := "zeropod.ctrox.dev/disable-checkpointing"

/-- Key of the pre-dump annotation. -/
def preDumpKey : String := "zeropod.ctrox.dev/pre-dump"

/-- Key of the CRI container-name annotation. -/
def criContainerNameKey : String := "io.kubernetes.cri.container-name"

/-- Key of the CRI container-type annotation. -/
def criContainerTypeKey : String := "io.kubernetes.cri.container-type"

/-- Key of the CRI sandbox-name annotation. -/
def sandboxNameKey : String := "io.kubernetes.cri.sandbox-name"

/-- Key of the CRI sandbox-namespace annotation. -/
def sandboxNamespaceKey : String := "io.kubernetes.cri.sandbox-namespace"

/-- Key of the CRI sandbox-uid annotation. -/
def sandboxUIDKey : String := "io.kubernetes.cri.sandbox-uid"

/-- Key of the vcluster pod-name annotation. -/
def vclusterNameKey : String := "vcluster.loft.sh/name"

/-- Key of the vcluster namespace annotation. -/
def vclusterNamespaceKey : String := "vcluster.loft.sh/namespace"

/-- defaultScaleDownDuration: one minute, in nanoseconds. -/
def defaultScaleDownDuration : Nat := 60000000000

/-- defaultContainerdNS. -/
def defaultContainerdNS : String := "k8s.io"

/-- Value of annotation key `k` in the container spec's annotation map;
mapstructure.Decode leaves a struct field empty when its key is absent. -/
def lookupAnn (anns : List (String × String)) (k : String) : String :=
  match anns.find? (fun p => p.1 = k) with
  | some p => p.2
  | none => ""

/-- The typed configuration produced by zeropod.NewConfig (zeropod.Config).
The `spec` pointer is omitted; durations are nanosecond counts. -/
structure Config where
  ZeropodContainerNames : List String
  Ports : List Nat
  ScaleDownDuration : Nat
  DisableCheckpointing : Bool
  PreDump : Bool
  ContainerName : String
  ContainerType : String
  podName : String
  podNamespace : String
  podUID : String
  ContainerdNamespace : String
  vclusterPodName : String
  vclusterPodNamespace : String
  deriving DecidableEq, Repr

/-- The inner loop of NewConfig's port-map parsing: parse each port of a
matching mapping as a 16-bit unsigned integer, appending to `acc`; a parse
failure aborts with the strconv error. -/
def parsePortsList (acc : List Nat) : List String → Except String (List Nat)
  | [] => .ok acc
  | port :: rest =>
    match parseUint16 port with
    | some p => parsePortsList (acc ++ [p]) rest
    | none => .error "strconv.ParseUint: parsing: invalid syntax"

/-- One iteration of NewConfig's port-map loop: split the mapping at "=",
require exactly two fields, skip mappings for other container names (before
any port is parsed), and parse the comma-separated ports otherwise. -/
def parseMapping (containerName m : String) : Except String (List Nat) :=
  match strSplit '=' m with
  | [name, ports] =>
    if name = containerName then parsePortsList [] (strSplit ',' ports)
    else .ok []
  | _ => .error "invalid port map, the format needs to be name=port"

/-- The outer loop of NewConfig's port-map parsing, over the mappings split
at ";", accumulating the ports of every matching mapping in order. -/
def parseMappings (containerName : String) (acc : List Nat) :
    List String → Except String (List Nat)
  | [] => .ok acc
  | m :: rest =>
    match parseMapping containerName m with
    | .ok ps => parseMappings containerName (acc ++ ps) rest
    | .error e => .error e

/-- The ports parsing of NewConfig: an empty ports-map yields no ports,
otherwise the value is split into mappings at ";" and each mapping is
processed in order. -/
def parsePorts (containerName portMap : String) : Except String (List Nat) :=
  if portMap.data = [] then .ok []
  else parseMappings containerName [] (strSplit ';' portMap)

/-- zeropod.NewConfig: decode the annotations of a container spec into a
Config. `ctxNS` models namespaces.Namespace(ctx); `arch` models
runtime.GOARCH. Errors from port, duration or boolean parsing abort the
decode. -/
def NewConfig (ctxNS : Option String) (arch : String)
    (anns : List (String × String)) : Except String Config :=
  let portMap := lookupAnn anns portsMapKey
  let namesAnn := lookupAnn anns containerNamesKey
  let durAnn := lookupAnn anns scaleDownDurationKey
  let disableAnn := lookupAnn anns disableCheckpointingKey
  let preDumpAnn := lookupAnn anns preDumpKey
  let containerName := lookupAnn anns criContainerNameKey
  match parsePorts containerName portMap with
  | .error e => .error e
  | .ok containerPorts =>
    match (if durAnn.data = [] then .ok defaultScaleDownDuration
           else parseGoDuration durAnn) with
    | .error e => .error e
    | .ok dur =>
      match (if disableAnn.data = [] then .ok false else parseGoBool disableAnn) with
      | .error e => .error e
      | .ok disableCheckpointing =>
        match (if preDumpAnn.data = [] then .ok false else parseGoBool preDumpAnn) with
        | .error e => .error e
        | .ok preDump0 =>
          let preDump := if preDump0 && arch = "arm64" then false else preDump0
          let containerNames :=
            if namesAnn.data = [] then [] else strSplit ',' namesAnn
          let ns := match ctxNS with | some n => n | none => defaultContainerdNS
          .ok ⟨containerNames, containerPorts, dur, disableCheckpointing, preDump,
               containerName, lookupAnn anns criContainerTypeKey,
               lookupAnn anns sandboxNameKey, lookupAnn anns sandboxNamespaceKey,
               lookupAnn anns sandboxUIDKey, ns,
               lookupAnn anns vclusterNameKey, lookupAnn anns vclusterNamespaceKey⟩

/-- zeropod.Config.IsZeropodContainer: the container name is listed, or the
list is empty (every container is considered). -/
def Config.IsZeropodContainer (cfg : Config) : Bool :=
  cfg.ZeropodContainerNames.any (fun n => n = cfg.ContainerName) ||
    cfg.ZeropodContainerNames.isEmpty

/-- zeropod.Config.HostPodName. -/
def Config.HostPodName (cfg : Config) : String := cfg.podName

/-- zeropod.Config.HostPodNamespace. -/
def Config.HostPodNamespace (cfg : Config) : String := cfg.podNamespace

/-- zeropod.Config.PodName: the vcluster pod name when non-empty, otherwise
the host pod name. -/
def Config.PodName (cfg : Config) : String :=
  if cfg.vclusterPodName ≠ "" then cfg.vclusterPodName else cfg.podName

/-- zeropod.Config.PodNamespace: the vcluster namespace when non-empty,
otherwise the host pod namespace. -/
def Config.PodNamespace (cfg : Config) : String :=
  if cfg.vclusterPodNamespace ≠ "" then cfg.vclusterPodNamespace
  else cfg.podNamespace

/-- Whether an Except is a success. -/
def isOkE {ε α : Type} : Except ε α → Bool
  | .ok _ => true
  | .error _ => false

/-- A mapping of the ports-map value that makes NewConfig fail: it does not
split into exactly two fields at "=", or its name equals the configured
container name and one of its comma-separated ports does not parse as a
16-bit unsigned integer. -/
def badMapping (containerName m : String) : Bool :=
  match strSplit '=' m with
  | [name, ports] =>
    name = containerName && (strSplit ',' ports).any (fun p => (parseUint16 p).isNone)
  | _ => true

/-! ## Filesystem layout helpers (snapshotDir, containerDir) -/

/-- snapshotDir: the snapshot area of a bundle. -/
def snapshotDir (bundle : String) : String := pathJoin bundle "snapshots"

/-- containerDir: the CRIU image directory of a bundle. -/
def containerDir (bundle : String) : String :=
  pathJoin (snapshotDir bundle) "container"

/-! ## Exit reconciler (wrapper.processExits / wrapper.preventExit, v2) -/

/-- A (container, process) pair of the task service's `running` map. -/
structure CP where
  containerID : String
  processID : String
  isInit : Bool
  deriving DecidableEq, Repr

/-- The view of a managed zeropod.Container that the exit reconciler reads:
the scaled-down flag, the ID of the initial process (nil-able in the source)
and the ID of the current process. -/
structure ZC where
  scaledDown : Bool
  initialProcessID : Option String
  processID : String
  deriving DecidableEq, Repr

/-- A reaped process-exit event (runc Exit: pid and status). -/
structure ExitEv where
  pid : Nat
  status : Nat
  deriving DecidableEq, Repr

/-- State read and written by one iteration of wrapper.processExits: the
`running` map (absent pid = empty list), the pending-exec counts per
container, the managed-container lookup (getZeropodContainer) and the exit
subscribers registered by concurrent Start calls. -/
structure ExitsState where
  running : Nat → List CP
  pendingExecs : String → Nat
  zeropodContainers : String → Option ZC
  subs : List (Nat → List ExitEv)

/-- wrapper.preventExit: returns true iff the pair belongs to a managed
container that is currently scaled down. When the container is managed but
not scaled down and the exiting process is its initial or current process,
the initial process is marked exited(0); the second component records the
containers receiving that mark. -/
def preventExit (z : String → Option ZC) (cp : CP) : Bool × List String :=
  match z cp.containerID with
  | none => (false, [])
  | some zc =>
    if zc.scaledDown then (true, [])
    else if (match zc.initialProcessID with
             | some ipid => cp.processID = ipid
             | none => false) || cp.processID = zc.processID then
      (false, [cp.containerID])
    else (false, [])

/-- Result of one iteration of wrapper.processExits. `handled` lists the
(container, process) pairs that are passed to the delegate's
handleProcessExit, in call order. -/
structure StepOut where
  handled : List CP
  runningAfter : Nat → List CP
  initialExitSets : List String
  subsAfter : List (Nat → List ExitEv)

/-- One iteration of wrapper.processExits for event `e`, mirroring the source:
`cps` is initialized to running[e.pid]; if preventExit holds for any pair the
event is dropped. Otherwise the event is appended to every subscriber, the
init pairs of containers with pending execs are collected as `skipped` and
written back to running[e.pid] (an empty `skipped` deletes the entry), every
other pair is appended to `cps` (which already contains all the pairs), and
handleProcessExit is invoked for each element of `cps`. -/
def processExitsStep (st : ExitsState) (e : ExitEv) : StepOut :=
  let cps0 := st.running e.pid
  let prevented := cps0.any (fun cp => (preventExit st.zeropodContainers cp).1)
  let effs := cps0.foldr (fun cp acc => (preventExit st.zeropodContainers cp).2 ++ acc) []
  if prevented then ⟨[], st.running, effs, st.subs⟩
  else
    let subsAfter := st.subs.map (fun m p => if p = e.pid then m p ++ [e] else m p)
    let isSkipped := fun cp : CP => cp.isInit && st.pendingExecs cp.containerID != 0
    let skipped := cps0.filter isSkipped
    let cps := cps0 ++ cps0.filter (fun cp => !(isSkipped cp))
    ⟨cps, fun p => if p = e.pid then skipped else st.running p, effs, subsAfter⟩

/-! ## Lifecycle wrapper Kill (v2 task service) -/

/-- Observable actions of wrapper.Kill. -/
inductive KillEffect where
  | setExitedCurrent (status : Nat)
  | setExitedInitial (status : Nat)
  | stopActivator
  | killProcess (signal : Nat) (all : Bool)
  | delegateKill
  deriving DecidableEq, Repr

/-- Result of wrapper.Kill: the actions taken, and the error if the wrapper
returned one of its own (the delegate's outcome is out of scope). -/
structure KillOut where
  effects : List KillEffect
  err : Option String
  deriving DecidableEq, Repr

/-- wrapper.Kill of the v2 task service. `managed` is whether
getZeropodContainer finds the ID, `scaledDown` is the managed container's
flag, `killFails` is the outcome of the forwarded Process().Kill call in the
running branch. -/
def wrapperKill (managed scaledDown killFails : Bool) (execID : String)
    (signal : Nat) (all : Bool) : KillOut :=
  if !managed then ⟨[.delegateKill], none⟩
  else if execID = "" && scaledDown then
    ⟨[.setExitedCurrent 0, .setExitedInitial 0, .stopActivator, .delegateKill], none⟩
  else if execID = "" then
    if killFails then ⟨[.stopActivator, .killProcess signal all], some "kill failed"⟩
    else ⟨[.stopActivator, .killProcess signal all, .setExitedInitial 0, .delegateKill], none⟩
  else ⟨[.delegateKill], none⟩

/-! ## Checkpoint/restore engine: Container.Restore (zeropod/restore.go) -/

/-- Observable actions of Container.Restore. -/
inductive REffect where
  | spawnRestoreLoggers
  | createContainer (checkpointPath : String)
  | cgroupSet
  | preRestoreHook
  | startProcess
  | readRestoreLog (path : String)
  | logRestoreLog (contents : String)
  | postRestoreHook
  | disableRedirects
  deriving DecidableEq, Repr

/-- Outcomes of the external calls Container.Restore makes, plus the
configuration it reads. -/
structure REnv where
  disableCheckpointing : Bool
  newContainerFails : Bool
  processFails : Bool
  startFails : Bool
  restoreLog : String
  restoreLogReadFails : Bool
  disableRedirectsFails : Bool
  hasPreRestore : Bool
  hasPostRestore : Bool
  deriving DecidableEq, Repr

/-- Result of Container.Restore: actions taken and the returned error. -/
structure ROut where
  effects : List REffect
  err : Option String
  deriving DecidableEq, Repr

/-- zeropod.Container.Restore: spawn the log re-piper, create a container
from the checkpoint (an empty checkpoint path when checkpointing is
disabled), re-attach the cgroup, run the pre-restore hook, start the
process — reading and logging work/restore.log on a start failure — then run
the post-restore hook and disable the activator's redirects. -/
def containerRestore (bundle : String) (env : REnv) : ROut :=
  let ckpt := if env.disableCheckpointing then "" else containerDir bundle
  let pre := [REffect.spawnRestoreLoggers, REffect.createContainer ckpt]
  if env.newContainerFails then ⟨pre, some "new container failed"⟩
  else
    let pre := pre ++ [REffect.cgroupSet] ++
      (if env.hasPreRestore then [REffect.preRestoreHook] else [])
    if env.processFails then ⟨pre, some "process lookup failed"⟩
    else if env.startFails then
      ⟨pre ++ [REffect.startProcess,
        REffect.readRestoreLog (pathJoin (pathJoin bundle "work") "restore.log"),
        REffect.logRestoreLog (if env.restoreLogReadFails then "" else env.restoreLog)],
       some "start failed during restore"⟩
    else
      let post := pre ++ [REffect.startProcess] ++
        (if env.hasPostRestore then [REffect.postRestoreHook] else []) ++
        [REffect.disableRedirects]
      if env.disableRedirectsFails then ⟨post, some "could not disable redirects"⟩
      else ⟨post, none⟩

/-- Steps taken by wrapper.Exec of the v2 task service. -/
inductive ExecStep where
  | cancelScaleDown
  | restoreCall
  | setScaledDownFalse
  | shimExit (code : Nat)
  | delegateExec
  deriving DecidableEq, Repr

/-- wrapper.Exec of the v2 task service: unmanaged IDs delegate directly;
managed IDs first cancel the pending scale-down; a scaled-down container is
restored before delegating, and a restore failure terminates the shim with a
non-zero exit (log.Fatalf followed by os.Exit(1)). -/
def wrapperExec (managed scaledDown : Bool) (bundle : String) (renv : REnv) :
    List ExecStep :=
  if !managed then [.delegateExec]
  else if scaledDown then
    match (containerRestore bundle renv).err with
    | some _ => [.cancelScaleDown, .restoreCall, .shimExit 1]
    | none => [.cancelScaleDown, .restoreCall, .setScaledDownFalse, .delegateExec]
  else [.cancelScaleDown, .delegateExec]

/-! ## v1 engine: wrapper.scaleDown and wrapper.Start -/

/-- The options record passed to Init.Checkpoint (process.CheckpointConfig). -/
structure CheckpointOpts where
  path : String
  workDir : String
  exit : Bool
  allowOpenTCP : Bool
  allowExternalUnixSockets : Bool
  allowTerminal : Bool
  fileLocks : Bool
  emptyNamespaces : List String
  deriving DecidableEq, Repr

/-- Observable actions of wrapper.scaleDown. -/
inductive SDEffect where
  | removeSnapshotDir (dir : String)
  | checkpoint (opts : CheckpointOpts)
  | readDumpLog (path : String)
  | logDumpLog (contents : String)
  | sendTaskCheckpointed
  | startZeropod
  | removeCriuRules
  deriving DecidableEq, Repr

/-- Outcomes of the external calls wrapper.scaleDown makes. -/
structure SDEnv where
  removeFails : Bool
  checkpointFails : Bool
  dumpLog : String
  dumpLogReadFails : Bool
  startZeropodFails : Bool
  getNSFails : Bool
  iptablesFails : Bool
  deriving DecidableEq, Repr

/-- Result of wrapper.scaleDown: actions, the final scaledDown flag, and the
returned error. -/
structure SDOut where
  effects : List SDEffect
  scaledDown : Bool
  err : Option String
  deriving DecidableEq, Repr

/-- wrapper.scaleDown (v1): wipe the snapshot dir, set the scaledDown flag,
checkpoint with fixed options; on checkpoint failure clear the flag, read and
log work/dump.log and return the error; on success publish TaskCheckpointed,
start the zeropod activator and reset CRIU's iptables rules. `sdIn` is the
scaledDown flag on entry. -/
def scaleDown (bundle : String) (sdIn : Bool) (env : SDEnv) : SDOut :=
  let snapDir := snapshotDir bundle
  let workDir := pathJoin snapDir "work"
  if env.removeFails then
    ⟨[.removeSnapshotDir snapDir], sdIn, some "unable to prepare snapshot dir"⟩
  else
    let opts : CheckpointOpts :=
      ⟨containerDir bundle, workDir, true, true, true, false, false, []⟩
    if env.checkpointFails then
      ⟨[.removeSnapshotDir snapDir, .checkpoint opts,
        .readDumpLog (pathJoin workDir "dump.log"),
        .logDumpLog (if env.dumpLogReadFails then "" else env.dumpLog)],
       false, some "error checkpointing container"⟩
    else if env.startZeropodFails then
      ⟨[.removeSnapshotDir snapDir, .checkpoint opts, .sendTaskCheckpointed,
        .startZeropod],
       true, some "unable to start zeropod"⟩
    else if env.getNSFails then
      ⟨[.removeSnapshotDir snapDir, .checkpoint opts, .sendTaskCheckpointed,
        .startZeropod],
       true, some "get netns failed"⟩
    else if env.iptablesFails then
      ⟨[.removeSnapshotDir snapDir, .checkpoint opts, .sendTaskCheckpointed,
        .startZeropod, .removeCriuRules],
       true, some "unable to restore iptables"⟩
    else
      ⟨[.removeSnapshotDir snapDir, .checkpoint opts, .sendTaskCheckpointed,
        .startZeropod, .removeCriuRules],
       true, none⟩

/-- Extract the options of a checkpoint action. -/
def checkpointOptsOf : SDEffect → Option CheckpointOpts
  | .checkpoint o => some o
  | _ => none

/-- Outcomes of the external calls wrapper.Start (v1) makes. -/
structure StartV1Env where
  delegateFails : Bool
  getContainerFails : Bool
  processFails : Bool
  sandboxCheckFails : Bool
  isSandbox : Bool
  processPid : Nat
  delegatePid : Nat
  sdEnv : SDEnv
  deriving DecidableEq, Repr

/-- Result of wrapper.Start (v1): the RPC outcome (pid of the response on
success) and the result of the scale-down attempt, when one was made. -/
structure StartV1Out where
  resp : Except String Nat
  sdResult : Option SDOut

/-- wrapper.Start (v1): delegate first; for a non-sandbox container with an
empty exec ID, store the original process and scale down; a scale-down error
is swallowed and a fresh successful StartResponse carrying the process pid is
returned instead of the delegate's response. -/
def startV1 (bundle execID : String) (sdIn : Bool) (env : StartV1Env) :
    StartV1Out :=
  if env.delegateFails then ⟨.error "delegate start failed", none⟩
  else if env.getContainerFails then ⟨.error "get container failed", none⟩
  else if env.processFails then ⟨.error "get process failed", none⟩
  else if env.sandboxCheckFails then ⟨.error "sandbox check failed", none⟩
  else if !env.isSandbox && execID = "" then
    let sd := scaleDown bundle sdIn env.sdEnv
    match sd.err with
    | some _ => ⟨.ok env.processPid, some sd⟩
    | none => ⟨.ok env.delegatePid, some sd⟩
  else ⟨.ok env.delegatePid, none⟩

/-! ## Lifecycle wrapper Start (v2 task service) -/

/-- containerTypeSandbox. -/
def containerTypeSandbox : String := "sandbox"

/-- Outcomes of the external calls wrapper.Start (v2) makes, plus the
ambient containerd namespace and host architecture read by NewConfig. -/
structure StartV2Env where
  delegateFails : Bool
  getContainerFails : Bool
  getSpecFails : Bool
  newContainerFails : Bool
  scheduleFails : Bool
  ctxNS : Option String
  arch : String

/-- Result of wrapper.Start (v2): the RPC outcome (ok means the delegate's
response is returned unchanged) and what was registered for the managed
container. -/
structure StartV2Out where
  resp : Except String Unit
  registered : Bool
  preRestoreRegistered : Bool
  postRestoreRegistered : Bool
  shutdownHookRegistered : Bool
  scheduledScaleDown : Bool
  deriving Repr

/-- wrapper.Start of the v2 task service: delegate, fetch the container and
its spec, decode the config; sandbox containers, execs and unselected
containers return the delegate's response unchanged; otherwise create the
managed zeropod container, register the pre- and post-restore callbacks, store
it in the wrapper's map, register a shutdown hook and schedule the first
scale-down. -/
def wrapperStart (execID : String) (anns : List (String × String))
    (env : StartV2Env) : StartV2Out :=
  if env.delegateFails then
    ⟨.error "delegate start failed", false, false, false, false, false⟩
  else if env.getContainerFails then
    ⟨.error "get container failed", false, false, false, false, false⟩
  else if env.getSpecFails then
    ⟨.error "get spec failed", false, false, false, false, false⟩
  else
    match NewConfig env.ctxNS env.arch anns with
    | .error e => ⟨.error e, false, false, false, false, false⟩
    | .ok cfg =>
      if cfg.ContainerType = containerTypeSandbox ∨ execID ≠ "" ∨
          cfg.IsZeropodContainer = false then
        ⟨.ok (), false, false, false, false, false⟩
      else if env.newContainerFails then
        ⟨.error "error creating scaled container", false, false, false, false, false⟩
      else if env.scheduleFails then
        ⟨.error "schedule scale down failed", true, true, true, true, false⟩
      else ⟨.ok (), true, true, true, true, true⟩

/-! ## v1 restore stdio rewriting (service.restore) -/

/-- The stdio rewriting at the top of the v1 service.restore: the stored
stdout is stripped of its "file://" prefix and "-1" suffix; the stored stderr
is then assigned twice, both times computed from the rewritten stdout (the
second assignment overwrites the first); finally the process is created with
"file://" + value + "-1" for both streams. Returns the (Stdout, Stderr) pair
passed to process.New. The incoming stderr is never read. -/
def restoreStdioRewrite (stdoutIn stderrIn : String) : String × String :=
  let o2 := trimSfx (trimPfx stdoutIn "file://") "-1"
  let _e1 := trimPfx o2 "file://"
  let e2 := trimSfx o2 "-1"
  let _unused := stderrIn
  ("file://" ++ o2 ++ "-1", "file://" ++ e2 ++ "-1")

/-! ## Concrete inputs used by the counterexamples -/

/-- Running map with a single plain (non-init) pair at pid 7. -/
def stPlain : ExitsState :=
  ⟨fun p => if p = 7 then [⟨"c2", "p2", false⟩] else [],
   fun _ => 0, fun _ => none, []⟩

/-- Running map with a single init pair at pid 7 whose container has one
pending exec. -/
def stPending : ExitsState :=
  ⟨fun p => if p = 7 then [⟨"c1", "p1", true⟩] else [],
   fun c => if c = "c1" then 1 else 0, fun _ => none, []⟩

/-- Running map with a single init pair at pid 7 of a scaled-down managed
container. -/
def stScaled : ExitsState :=
  ⟨fun p => if p = 7 then [⟨"c1", "p1", true⟩] else [],
   fun _ => 0,
   fun i => if i = "c1" then some ⟨true, some "p0", "p1"⟩ else none, []⟩

/-- Annotations of the C10 witness: a vcluster pod name overriding the host
pod name, and no vcluster namespace. -/
def annsVC : List (String × String) :=
  [(vclusterNameKey, "vp"), (sandboxNameKey, "hp"), (sandboxNamespaceKey, "hns")]

/-- The configuration NewConfig produces for `annsVC`. -/
def cfgVC : Config :=
  ⟨[], [], 60000000000, false, false, "", "", "hp", "hns", "", "k8s.io", "vp", ""⟩

/-- Annotations of the C7 witness: a plain workload container. -/
def annsWL : List (String × String) := [(criContainerNameKey, "web")]

/-- The configuration NewConfig produces for `annsWL`. -/
def cfgWL : Config :=
  ⟨[], [], 60000000000, false, false, "web", "", "", "", "", "k8s.io", "", ""⟩

/-- A StartV2Env in which every external call succeeds. -/
def envWL : StartV2Env := ⟨false, false, false, false, false, none, "amd64"⟩

/-- startEnvOK: the delegate call, container lookup and spec read of
wrapper.Start (v2) all succeed. -/
def startEnvOK (env : StartV2Env) : Prop :=
  env.delegateFails = false ∧ env.getContainerFails = false ∧
    env.getSpecFails = false

/-! ## General lemmas about the string model -/

lemma str_data_nil {s : String} : s.data = [] ↔ s = "" := by
  constructor
  · intro h
    cases s with
    | mk l =>
      simp only at h
      subst h
      rfl
  · intro h
    subst h
    rfl

lemma append_ne_empty (a b : String) (hb : b ≠ "") : a ++ b ≠ "" := by
  intro h
  apply hb
  have h2 : a.data ++ b.data = [] := by
    have h3 := congrArg String.data h
    rwa [String.data_append] at h3
  exact str_data_nil.mp (List.append_eq_nil.mp h2).2

lemma pathJoin_of_ne {a b : String} (ha : a ≠ "") (hb : b ≠ "") :
    pathJoin a b = a ++ "/" ++ b := by
  simp [pathJoin, ha, hb]

lemma snapshotDir_eq {bundle : String} (hb : bundle ≠ "") :
    snapshotDir bundle = bundle ++ "/snapshots" := by
  rw [snapshotDir, pathJoin_of_ne hb (by decide), String.append_assoc]
  rfl

lemma containerDir_eq {bundle : String} (hb : bundle ≠ "") :
    containerDir bundle = bundle ++ "/snapshots/container" := by
  have h1 : snapshotDir bundle ≠ "" := by
    rw [snapshotDir_eq hb]
    exact append_ne_empty _ _ (by decide)
  rw [containerDir, pathJoin_of_ne h1 (by decide), snapshotDir_eq hb,
    String.append_assoc, String.append_assoc]
  rfl

lemma snapshotWork_eq {bundle : String} (hb : bundle ≠ "") :
    pathJoin (snapshotDir bundle) "work" = bundle ++ "/snapshots/work" := by
  have h1 : snapshotDir bundle ≠ "" := by
    rw [snapshotDir_eq hb]
    exact append_ne_empty _ _ (by decide)
  rw [pathJoin_of_ne h1 (by decide), snapshotDir_eq hb,
    String.append_assoc, String.append_assoc]
  rfl

lemma trimSfx_of_not {s p : String} (h : hasSfx s p = false) : trimSfx s p = s := by
  simp [trimSfx, h]

lemma parsePortsList_err (acc : List Nat) (l : List String)
    (h : ∃ p ∈ l, (parseUint16 p).isNone = true) :
    ∃ e, parsePortsList acc l = .error e := by
  induction l generalizing acc with
  | nil => simp at h
  | cons x xs ih =>
    obtain ⟨p, hp, hbad⟩ := h
    cases hx : parseUint16 x with
    | none =>
      exact ⟨"strconv.ParseUint: parsing: invalid syntax",
        by simp [parsePortsList, hx]⟩
    | some v =>
      rcases List.mem_cons.mp hp with rfl | hp2
      · rw [hx] at hbad
        simp at hbad
      · obtain ⟨e, he⟩ := ih (acc ++ [v]) ⟨p, hp2, hbad⟩
        exact ⟨e, by simp [parsePortsList, hx, he]⟩

lemma parseMapping_err (c m : String) (h : badMapping c m = true) :
    ∃ e, parseMapping c m = .error e := by
  unfold badMapping at h
  unfold parseMapping
  cases hsp : strSplit '=' m with
  | nil => exact ⟨_, rfl⟩
  | cons a rest =>
    cases rest with
    | nil => exact ⟨_, rfl⟩
    | cons b rest2 =>
      cases rest2 with
      | nil =>
        rw [hsp] at h
        simp only [Bool.and_eq_true, decide_eq_true_eq] at h
        obtain ⟨hname, hany⟩ := h
        show ∃ e, (if a = c then parsePortsList [] (strSplit ',' b)
          else Except.ok []) = Except.error e
        rw [if_pos hname]
        exact parsePortsList_err [] _ (List.any_eq_true.mp hany)
      | cons d rest3 => exact ⟨_, rfl⟩

lemma parseMappings_err (c : String) (acc : List Nat) (L : List String)
    (h : ∃ m ∈ L, badMapping c m = true) :
    ∃ e, parseMappings c acc L = .error e := by
  induction L generalizing acc with
  | nil => simp at h
  | cons m ms ih =>
    obtain ⟨m0, hm0, hbad⟩ := h
    cases hpm : parseMapping c m with
    | error e => exact ⟨e, by simp [parseMappings, hpm]⟩
    | ok ps =>
      rcases List.mem_cons.mp hm0 with rfl | hm2
      · obtain ⟨e, he⟩ := parseMapping_err c m0 hbad
        rw [hpm] at he
        exact absurd he (by simp)
      · obtain ⟨e, he⟩ := ih (acc ++ ps) ⟨m0, hm2, hbad⟩
        exact ⟨e, by simp [parseMappings, hpm, he]⟩

/-! ## Claim theorems -/

/-- C1: for every Kill RPC with empty exec_id on a managed container whose
state is ScaledDown, the wrapper marks the current and the initial process
as exited with status 0, stops the Activator, and then delegates the Kill to
the underlying task service; no error of its own is returned. -/
theorem C1_kill_scaled_down_synthesized_exit
    (killFails : Bool) (signal : Nat) (all : Bool) :
    wrapperKill true true killFails "" signal all =
      ⟨[.setExitedCurrent 0, .setExitedInitial 0, .stopActivator, .delegateKill],
       none⟩ := rfl

/-- C2: a process-exit event whose PID maps to a (container, process) pair of
a managed container that is currently scaled down is suppressed entirely:
nothing is passed to the delegate's handleProcessExit and the running map is
unchanged. -/
theorem C2_scaled_down_exit_suppressed (st : ExitsState) (e : ExitEv)
    (h : ∃ cp ∈ st.running e.pid, ∃ zc,
      st.zeropodContainers cp.containerID = some zc ∧ zc.scaledDown = true) :
    (processExitsStep st e).handled = [] ∧
    (processExitsStep st e).runningAfter = st.running := by
  obtain ⟨cp, hmem, zc, hz, hsd⟩ := h
  have hcp : (preventExit st.zeropodContainers cp).1 = true := by
    simp [preventExit, hz, hsd]
  have hany : (st.running e.pid).any
      (fun cp => (preventExit st.zeropodContainers cp).1) = true :=
    List.any_eq_true.mpr ⟨cp, hmem, hcp⟩
  constructor <;> simp [processExitsStep, hany]

/-- Witness for C2 at a concrete scaled-down state. -/
theorem C2_scaled_down_exit_suppressed_witness :
    (processExitsStep stScaled ⟨7, 0⟩).handled = [] ∧
    (processExitsStep stScaled ⟨7, 0⟩).runningAfter = stScaled.running :=
  C2_scaled_down_exit_suppressed stScaled ⟨7, 0⟩
    ⟨⟨"c1", "p1", true⟩, by simp [stScaled], ⟨true, some "p0", "p1"⟩,
      by simp [stScaled], rfl⟩

/-- C3: contrary to the claim (and to the source's own comment), the
processExits pass does not defer handling of an init pair with pending
execs — the pair is kept in the running map but is still handled in this
pass — and a pair without pending execs is handled twice, because `cps` is
seeded with all of running[pid] before the skip loop appends the non-skipped
pairs again. -/
theorem C3_pending_exec_deferral_bug :
    (processExitsStep stPlain ⟨7, 0⟩).handled =
      [⟨"c2", "p2", false⟩, ⟨"c2", "p2", false⟩] ∧
    (processExitsStep stPending ⟨7, 0⟩).handled = [⟨"c1", "p1", true⟩] ∧
    (processExitsStep stPending ⟨7, 0⟩).runningAfter 7 = [⟨"c1", "p1", true⟩] :=
  ⟨rfl, rfl, rfl⟩

/-- C4: when the checkpoint fails during a scale-down triggered by a v1
Start, the scaled-down flag is reset, work/dump.log is read and its contents
logged, the activator is never started, and the Start RPC still returns a
successful response carrying the process pid. -/
theorem C4_checkpoint_failure_recovered (bundle execID : String) (sdIn : Bool)
    (env : StartV1Env)
    (h1 : env.delegateFails = false) (h2 : env.getContainerFails = false)
    (h3 : env.processFails = false) (h4 : env.sandboxCheckFails = false)
    (h5 : env.isSandbox = false) (h6 : execID = "")
    (h7 : env.sdEnv.removeFails = false) (h8 : env.sdEnv.checkpointFails = true)
    (h9 : env.sdEnv.dumpLogReadFails = false) :
    (startV1 bundle execID sdIn env).resp = .ok env.processPid ∧
    (startV1 bundle execID sdIn env).sdResult =
      some (scaleDown bundle sdIn env.sdEnv) ∧
    (scaleDown bundle sdIn env.sdEnv).scaledDown = false ∧
    (scaleDown bundle sdIn env.sdEnv).err ≠ none ∧
    SDEffect.readDumpLog (pathJoin (pathJoin (snapshotDir bundle) "work") "dump.log")
      ∈ (scaleDown bundle sdIn env.sdEnv).effects ∧
    SDEffect.logDumpLog env.sdEnv.dumpLog ∈ (scaleDown bundle sdIn env.sdEnv).effects ∧
    SDEffect.startZeropod ∉ (scaleDown bundle sdIn env.sdEnv).effects := by
  have hsd : scaleDown bundle sdIn env.sdEnv =
      ⟨[.removeSnapshotDir (snapshotDir bundle),
        .checkpoint ⟨containerDir bundle, pathJoin (snapshotDir bundle) "work",
          true, true, true, false, false, []⟩,
        .readDumpLog (pathJoin (pathJoin (snapshotDir bundle) "work") "dump.log"),
        .logDumpLog env.sdEnv.dumpLog],
       false, some "error checkpointing container"⟩ := by
    simp [scaleDown, h7, h8, h9]
  refine ⟨?_, ?_, ?_, ?_, ?_, ?_, ?_⟩ <;>
    simp [startV1, h1, h2, h3, h4, h5, h6, hsd]

/-- Witness for C4 at a concrete environment. -/
theorem C4_checkpoint_failure_recovered_witness :
    (startV1 "/b" "" false
        ⟨false, false, false, false, false, 42, 41,
          ⟨false, true, "DUMP", false, false, false, false⟩⟩).resp = .ok 42 ∧
    (startV1 "/b" "" false
        ⟨false, false, false, false, false, 42, 41,
          ⟨false, true, "DUMP", false, false, false, false⟩⟩).sdResult =
      some (scaleDown "/b" false ⟨false, true, "DUMP", false, false, false, false⟩) ∧
    (scaleDown "/b" false ⟨false, true, "DUMP", false, false, false, false⟩).scaledDown = false ∧
    (scaleDown "/b" false ⟨false, true, "DUMP", false, false, false, false⟩).err ≠ none ∧
    SDEffect.readDumpLog (pathJoin (pathJoin (snapshotDir "/b") "work") "dump.log")
      ∈ (scaleDown "/b" false ⟨false, true, "DUMP", false, false, false, false⟩).effects ∧
    SDEffect.logDumpLog "DUMP"
      ∈ (scaleDown "/b" false ⟨false, true, "DUMP", false, false, false, false⟩).effects ∧
    SDEffect.startZeropod
      ∉ (scaleDown "/b" false ⟨false, true, "DUMP", false, false, false, false⟩).effects :=
  C4_checkpoint_failure_recovered "/b" "" false
    ⟨false, false, false, false, false, 42, 41,
      ⟨false, true, "DUMP", false, false, false, false⟩⟩
    rfl rfl rfl rfl rfl rfl rfl rfl rfl

/-- C5: when starting the restored process fails, Container.Restore reads
work/restore.log, logs its contents and returns an error, and the Exec path
of the v2 wrapper terminates the shim with exit code 1 instead of
delegating. -/
theorem C5_restore_failure_terminates_shim (bundle : String) (renv : REnv)
    (h1 : renv.newContainerFails = false) (h2 : renv.processFails = false)
    (h3 : renv.startFails = true) (h4 : renv.restoreLogReadFails = false) :
    (containerRestore bundle renv).err = some "start failed during restore" ∧
    REffect.readRestoreLog (pathJoin (pathJoin bundle "work") "restore.log")
      ∈ (containerRestore bundle renv).effects ∧
    REffect.logRestoreLog renv.restoreLog ∈ (containerRestore bundle renv).effects ∧
    wrapperExec true true bundle renv =
      [.cancelScaleDown, .restoreCall, .shimExit 1] := by
  have herr : (containerRestore bundle renv).err = some "start failed during restore" := by
    simp [containerRestore, h1, h2, h3]
  refine ⟨herr, ?_, ?_, ?_⟩
  · cases hpre : renv.hasPreRestore <;>
      simp [containerRestore, h1, h2, h3, h4, hpre]
  · cases hpre : renv.hasPreRestore <;>
      simp [containerRestore, h1, h2, h3, h4, hpre]
  · simp [wrapperExec, herr]

/-- Witness for C5 at a concrete environment. -/
theorem C5_restore_failure_terminates_shim_witness :
    (containerRestore "/b" ⟨false, false, false, true, "RLOG", false, false, true, true⟩).err =
      some "start failed during restore" ∧
    REffect.readRestoreLog (pathJoin (pathJoin "/b" "work") "restore.log")
      ∈ (containerRestore "/b" ⟨false, false, false, true, "RLOG", false, false, true, true⟩).effects ∧
    REffect.logRestoreLog "RLOG"
      ∈ (containerRestore "/b" ⟨false, false, false, true, "RLOG", false, false, true, true⟩).effects ∧
    wrapperExec true true "/b" ⟨false, false, false, true, "RLOG", false, false, true, true⟩ =
      [.cancelScaleDown, .restoreCall, .shimExit 1] :=
  C5_restore_failure_terminates_shim "/b"
    ⟨false, false, false, true, "RLOG", false, false, true, true⟩ rfl rfl rfl rfl

/-- C6: every checkpoint invocation of the v1 scale-down passes exactly the
options dump target bundle/snapshots/container, work dir
bundle/snapshots/work, exit-after-dump true, allow-open-tcp true,
allow-external-unix-sockets true, allow-terminal false, file-locks false and
no empty-namespaces: the checkpoint actions of a scale-down form exactly
that one-element list. -/
theorem C6_checkpoint_options_exact (bundle : String) (sdIn : Bool) (env : SDEnv)
    (hb : bundle ≠ "") (hr : env.removeFails = false) :
    (scaleDown bundle sdIn env).effects.filterMap checkpointOptsOf =
      [⟨bundle ++ "/snapshots/container", bundle ++ "/snapshots/work",
        true, true, true, false, false, []⟩] := by
  have hc := containerDir_eq hb
  have hw := snapshotWork_eq hb
  rcases env with ⟨rf, cf, dl, dlrf, szf, gns, ipf⟩
  simp only at hr
  subst hr
  cases cf <;> cases szf <;> cases gns <;> cases ipf <;>
    simp [scaleDown, checkpointOptsOf, hc, hw]

/-- Witness for C6 at a concrete bundle and environment. -/
theorem C6_checkpoint_options_exact_witness :
    (scaleDown "/b" false ⟨false, false, "", false, false, false, false⟩).effects.filterMap
        checkpointOptsOf =
      [⟨"/b" ++ "/snapshots/container", "/b" ++ "/snapshots/work",
        true, true, true, false, false, []⟩] :=
  C6_checkpoint_options_exact "/b" false
    ⟨false, false, "", false, false, false, false⟩ (by decide) rfl

/-- C7: a v2 Start whose exec_id is non-empty, whose configured type is
"sandbox" or whose container is not selected returns the delegate's response
unchanged and registers nothing; every other successful Start registers the
managed container, its pre- and post-restore callbacks and a shutdown hook,
and schedules the first scale-down. -/
theorem C7_start_gating_and_registration (execID : String)
    (anns : List (String × String)) (env : StartV2Env) (cfg : Config)
    (henv : startEnvOK env)
    (hcfg : NewConfig env.ctxNS env.arch anns = .ok cfg) :
    ((cfg.ContainerType = containerTypeSandbox ∨ execID ≠ "" ∨
        cfg.IsZeropodContainer = false) →
      wrapperStart execID anns env = ⟨.ok (), false, false, false, false, false⟩) ∧
    (¬(cfg.ContainerType = containerTypeSandbox ∨ execID ≠ "" ∨
        cfg.IsZeropodContainer = false) →
      env.newContainerFails = false → env.scheduleFails = false →
      wrapperStart execID anns env = ⟨.ok (), true, true, true, true, true⟩) := by
  obtain ⟨h1, h2, h3⟩ := henv
  constructor
  · intro hskip
    simp only [wrapperStart, h1, h2, h3, hcfg]
    rw [if_pos hskip]
    simp
  · intro hskip hnc hsch
    simp only [wrapperStart, h1, h2, h3, hcfg]
    rw [if_neg hskip]
    simp [hnc, hsch]

/-- Witness for C7: a plain workload container registers everything. -/
theorem C7_start_gating_and_registration_witness :
    wrapperStart "" annsWL envWL = ⟨.ok (), true, true, true, true, true⟩ :=
  (C7_start_gating_and_registration "" annsWL envWL cfgWL
      ⟨rfl, rfl, rfl⟩ rfl).2 (by decide) rfl rfl

/-- C8 counterexample: the ports-map value "other=notaport" is malformed in
the claim's sense (the port does not parse as a 16-bit unsigned integer),
yet NewConfig succeeds, because mappings whose name differs from the
configured container name are skipped before their ports are parsed. -/
theorem C8_counterexample :
    isOkE (NewConfig none "amd64"
      [(portsMapKey, "other=notaport"), (criContainerNameKey, "mine")]) = true := by
  decide

/-- C8 (amended): NewConfig returns an error for a non-empty ports-map value
containing a mapping that does not split into exactly two fields at "=", or
a mapping whose name equals the configured container name and one of whose
comma-separated ports does not parse as a 16-bit unsigned integer. -/
theorem C8_ports_map_errors_amended (ctxNS : Option String) (arch : String)
    (anns : List (String × String))
    (hv : lookupAnn anns portsMapKey ≠ "")
    (hbad : ∃ m ∈ strSplit ';' (lookupAnn anns portsMapKey),
      badMapping (lookupAnn anns criContainerNameKey) m = true) :
    isOkE (NewConfig ctxNS arch anns) = false := by
  obtain ⟨e, he⟩ := parseMappings_err (lookupAnn anns criContainerNameKey) []
    (strSplit ';' (lookupAnn anns portsMapKey)) hbad
  have hdata : ¬(lookupAnn anns portsMapKey).data = [] :=
    fun hd => hv (str_data_nil.mp hd)
  have hp : parsePorts (lookupAnn anns criContainerNameKey)
      (lookupAnn anns portsMapKey) = .error e := by
    simp [parsePorts, hdata, he]
  simp [NewConfig, hp, isOkE]

/-- Witness for the amended C8: a bad port under the matching name fails. -/
theorem C8_ports_map_errors_amended_witness :
    isOkE (NewConfig none "amd64"
      [(portsMapKey, "mine=x"), (criContainerNameKey, "mine")]) = false :=
  C8_ports_map_errors_amended none "amd64"
    [(portsMapKey, "mine=x"), (criContainerNameKey, "mine")]
    (by decide) ⟨"mine=x", by decide, by decide⟩

/-- C9 counterexample: for the stdio configuration whose stdout is
"file://out-1-1", the rewriting produces Stdout "file://out-1-1" but Stderr
"file://out-1", so the two do not point to the same file. -/
theorem C9_counterexample :
    (restoreStdioRewrite "file://out-1-1" "file://err").1 ≠
      (restoreStdioRewrite "file://out-1-1" "file://err").2 := by
  decide

/-- C9 (amended): whenever the stdout value, after stripping the "file://"
prefix and one "-1" suffix, does not still end in "-1", the rewritten Stderr
path equals the rewritten Stdout path (stderr is derived from the rewritten
stdout), so both point to the same file. -/
theorem C9_stderr_equals_stdout_amended (stdoutIn stderrIn : String)
    (h : hasSfx (trimSfx (trimPfx stdoutIn "file://") "-1") "-1" = false) :
    (restoreStdioRewrite stdoutIn stderrIn).1 =
      (restoreStdioRewrite stdoutIn stderrIn).2 := by
  have h2 := trimSfx_of_not h
  simp only [restoreStdioRewrite]
  rw [h2]

/-- Witness for the amended C9 at a concrete stdio configuration. -/
theorem C9_stderr_equals_stdout_amended_witness :
    (restoreStdioRewrite "file://out" "file://err").1 =
      (restoreStdioRewrite "file://out" "file://err").2 :=
  C9_stderr_equals_stdout_amended "file://out" "file://err" (by decide)

/-- C10: for every annotation map that NewConfig accepts, PodName returns
the vcluster pod-name annotation value when it is non-empty and the host
(sandbox) pod name otherwise, and PodNamespace returns the vcluster
namespace annotation value when it is non-empty and the host pod namespace
otherwise. -/
theorem C10_podname_vcluster_override (ctxNS : Option String) (arch : String)
    (anns : List (String × String)) (cfg : Config)
    (h : NewConfig ctxNS arch anns = .ok cfg) :
    cfg.PodName = (if lookupAnn anns vclusterNameKey ≠ ""
                   then lookupAnn anns vclusterNameKey
                   else lookupAnn anns sandboxNameKey) ∧
    cfg.PodNamespace = (if lookupAnn anns vclusterNamespaceKey ≠ ""
                        then lookupAnn anns vclusterNamespaceKey
                        else lookupAnn anns sandboxNamespaceKey) := by
  simp only [NewConfig] at h
  repeat' split at h
  all_goals
    first
      | exact Except.noConfusion h
      | (injection h with h2
         subst h2
         simp [Config.PodName, Config.PodNamespace])

/-- Witness for C10: the vcluster pod name overrides, the empty vcluster
namespace does not. -/
theorem C10_podname_vcluster_override_witness :
    cfgVC.PodName = (if lookupAnn annsVC vclusterNameKey ≠ ""
                     then lookupAnn annsVC vclusterNameKey
                     else lookupAnn annsVC sandboxNameKey) ∧
    cfgVC.PodNamespace = (if lookupAnn annsVC vclusterNamespaceKey ≠ ""
                          then lookupAnn annsVC vclusterNamespaceKey
                          else lookupAnn annsVC sandboxNamespaceKey) :=
  C10_podname_vcluster_override none "amd64" annsVC cfgVC rfl

end Zeropod
